import Mathlib

/-!
Verification development for the data-analysis agent service.

The development shallowly embeds the protocol-translation layer of the
service: the OpenAI-compatible chat handler (`handler.py`), the run
configuration construction (`loop_trace.py`), the agent state reducer
(`agent.py`) and the SQL query tool (`sql_query_tool.py`).  The request
converter, response converter and error classifier modules are collaborators
of the handler whose sources are not part of this tree; they are modelled
from the specification (each such definition is marked `Modelled from the
spec:`).  Python strings are embedded as `List Char`, machine integers as
`Nat`, fallible code as `Except`/sum results, and the asynchronous streaming
generator as a function from a run outcome to the finite list of frames it
emits together with a flag recording whether a cancellation was re-raised.
-/

/-! ## Python string primitives

Python `str.strip()`, `str.upper()` and `str.startswith` embedded on
`List Char`. -/

/-- Embedding of Python `str.strip()`: drop leading and trailing whitespace. -/
def py_strip (s : List Char) : List Char :=
  ((s.dropWhile Char.isWhitespace).reverse.dropWhile Char.isWhitespace).reverse

/-- Embedding of Python `str.upper()` (ASCII case mapping suffices here). -/
def py_upper (s : List Char) : List Char := s.map Char.toUpper

/-- Embedding of Python `str.startswith`. -/
def py_startswith (s pre : List Char) : Bool := pre.isPrefixOf s

/-! ## SQL query tool (`src/backend/src/tools/sql_query_tool.py`)

`execute_sql_query` validates that the query is a SELECT statement, then
executes it against the database.  The database call is an external
collaborator: its behaviour is a parameter (`DbOutcome`) — either rows
(columns plus data, cell values already converted to strings or NULL) or a
raised exception, mirroring `db.execute`/`fetchall`.  The result is the
returned message string paired with a flag recording whether a database
session was opened (`get_session` called). -/

/-- Behaviour of the external database call for one query. -/
inductive DbOutcome where
  | rows (columns : List (List Char)) (data : List (List (Option (List Char))))
  | raises (msg : List Char)

/-- Literal guard message from `execute_sql_query`. -/
def only_select_error : List Char :=
  "Error: Only SELECT queries are allowed for data analysis.".toList

/-- JSON string quoting as used by `json.dumps` on the already-stringified
cell values (escaping is not exercised by the data model). -/
def json_quote (s : List Char) : List Char := '"' :: s ++ ['"']

/-- Render one result cell: `None` becomes JSON `null`, otherwise the
stringified value. -/
def render_cell : Option (List Char) → List Char
  | none => "null".toList
  | some v => json_quote v

/-- Intercalate for char-list fragments. -/
def joinSep (sep : List Char) : List (List Char) → List Char
  | [] => []
  | [x] => x
  | x :: y :: rest => x ++ sep ++ joinSep sep (y :: rest)

/-- Render one row as a JSON object over the result columns. -/
def render_row (cols : List (List Char)) (row : List (Option (List Char))) :
    List Char :=
  '\x7b' :: joinSep ", ".toList
    ((cols.zip row).map (fun p => json_quote p.1 ++ ": ".toList ++ render_cell p.2))
    ++ ['\x7d']

/-- Render the full query result in the shape produced by `json.dumps` of
the `columns`/`row_count`/`data` dictionary. -/
def render_query_result (cols : List (List Char))
    (data : List (List (Option (List Char)))) : List Char :=
  "\x7b\"columns\": [".toList ++ joinSep ", ".toList (cols.map json_quote) ++
  "], \"row_count\": ".toList ++ (toString data.length).toList ++
  ", \"data\": [".toList ++ joinSep ", ".toList (data.map (render_row cols)) ++
  "]\x7d".toList

/-- Embedding of `execute_sql_query`: the SELECT guard, then the database
call with its exception handler.  Returns the message string and whether a
database session was opened. -/
def execute_sql_query (sql : List Char) (db : DbOutcome) : List Char × Bool :=
  let sql_upper := py_upper (py_strip sql)
  if py_startswith sql_upper "SELECT".toList = false then
    (only_select_error, false)
  else
    match db with
    | DbOutcome.raises e =>
        (("Error executing SQL query: ".toList ++ e ++
          "\n\nPlease check your SQL syntax and try again.".toList), true)
    | DbOutcome.rows cols data =>
        if data.isEmpty then ("Query returned no results.".toList, true)
        else (render_query_result cols data, true)

/-! ## Agent state reducer (`src/backend/src/agents/agent.py`)

`AgentState.messages` is reduced by `_windowed_messages`, which merges via
the external `add_messages` reducer and keeps the last `MAX_MESSAGES`
entries.  `add_messages` is langgraph library code, modelled from its
documented semantics: each new message replaces an existing message with the
same id, otherwise it is appended. -/

/-- A chat message as seen by the reducer: an id and an opaque payload. -/
structure Msg where
  ident : String
  content : String
deriving DecidableEq

/-- Modelled from the external langgraph `add_messages` reducer: fold the
new messages into the old list, replacing by id or appending. -/
def add_messages (old new : List Msg) : List Msg :=
  new.foldl
    (fun acc m =>
      if acc.any (fun o => o.ident = m.ident) then
        acc.map (fun o => if o.ident = m.ident then m else o)
      else acc ++ [m])
    old

/-- Sliding-window size: keep the most recent 40 messages (20 turns). -/
def MAX_MESSAGES : Nat := 40

/-- Embedding of `_windowed_messages`: merge, then keep the Python slice
`[-MAX_MESSAGES:]`, i.e. drop all but the last `MAX_MESSAGES` entries. -/
def windowed_messages (old new : List Msg) : List Msg :=
  let merged := add_messages old new
  merged.drop (merged.length - MAX_MESSAGES)

/-! ## Error classification

The classifier module is a collaborator of the handler whose source is not
in this tree; it is modelled from the specification taxonomy.  The mapping
from the classified category to an HTTP status and error type IS in this
tree (`OpenAIChatHandler._handle_error`) and is embedded faithfully,
including its comparison of the category name against the strings
"Invalid", "BadRequest", "TimeOut" and "NotFound". -/

/-- Error categories produced by the classifier. -/
inductive ErrorCategory where
  | Invalid
  | BadRequest
  | TimeOut
  | NotFound
  | System
deriving DecidableEq

/-- Name of a category, as compared by `_handle_error`. -/
def ErrorCategory.name : ErrorCategory → String
  | .Invalid => "Invalid"
  | .BadRequest => "BadRequest"
  | .TimeOut => "TimeOut"
  | .NotFound => "NotFound"
  | .System => "System"

/-- A classified error: category (possibly absent), code and message. -/
structure ClassifiedError where
  category : Option ErrorCategory
  code : String
  message : String

/-- The failure shapes that can reach the handler's error paths. -/
inductive Exc where
  | invalidRequest (msg : String)
  | badRequest (msg : String)
  | notFound (msg : String)
  | timeout (msg : String)
  | other (msg : String)
deriving DecidableEq

/-- Message carried by a failure (Python `str(e)`). -/
def Exc.message : Exc → String
  | .invalidRequest m | .badRequest m | .notFound m | .timeout m | .other m => m

/-- Modelled from the spec: `classify_error` deterministically maps each
known failure shape to a typed error and never throws; anything
unrecognized classifies to `System`. -/
def classify_error : Exc → ClassifiedError
  | .invalidRequest m => ⟨some .Invalid, "InvalidParameter", m⟩
  | .badRequest m => ⟨some .BadRequest, "BadRequest", m⟩
  | .notFound m => ⟨some .NotFound, "NotFound", m⟩
  | .timeout m => ⟨some .TimeOut, "TimeOut", m⟩
  | .other m => ⟨some .System, "InternalError", m⟩

/-- OpenAI wire error object: `{message, type, code}`. -/
structure OpenAIError where
  message : String
  type : String
  code : String
deriving DecidableEq

/-- Embedding of the status/type mapping inside
`OpenAIChatHandler._handle_error`, taking the already-classified error and
the original exception message: defaults to `internal_error`/500, then maps
Invalid/BadRequest to 400, TimeOut to 408 and NotFound to 404. -/
def handle_error_from (err : ClassifiedError) (origMessage : String) :
    Nat × OpenAIError :=
  let categoryName := (err.category.map ErrorCategory.name).getD "System"
  let pair :=
    if categoryName = "Invalid" ∨ categoryName = "BadRequest" then
      ("invalid_request_error", 400)
    else if categoryName = "TimeOut" then ("timeout_error", 408)
    else if categoryName = "NotFound" then ("not_found_error", 404)
    else ("internal_error", 500)
  (pair.2, { message := origMessage, type := pair.1, code := err.code })

/-- Embedding of `OpenAIChatHandler._handle_error`: classify, then map. -/
def handle_error (e : Exc) : Nat × OpenAIError :=
  handle_error_from (classify_error e) e.message

/-! ## Runtime events and SSE frames

`stream_mode="messages"` yields events carrying an optional text delta; the
run's terminal event carries the finish reason.  A frame is one SSE unit:
a delta chunk, the final finish chunk, an error chunk or the terminal
marker.  `Frame.render` produces the wire bytes; the error chunk rendering
embeds `OpenAIChatHandler._create_error_sse_chunk` (`json.dumps` of the
id/object/error dictionary), and the terminal marker is the literal
`data: [DONE]\n\n`. -/

/-- The events of one complete runtime stream: the content deltas in
arrival order (an event may carry no text), and the finish reason of the
terminal event. -/
structure RunEvents where
  deltas : List (Option String)
  finishReason : String

/-- Converter state fixed at construction: request id, model and creation
timestamp stamped onto every chunk. -/
structure ConverterState where
  requestId : String
  model : String
  created : Nat

/-- One SSE frame, structurally. -/
inductive Frame where
  | delta (content : String)
  | finish (reason : String)
  | error (code : String) (message : String)
  | done
deriving DecidableEq

/-- Whether a frame is the terminal marker. -/
def Frame.isDone : Frame → Bool
  | .done => true
  | _ => false

/-- Whether a frame is an error chunk. -/
def Frame.isError : Frame → Bool
  | .error _ _ => true
  | _ => false

/-- Content carried by a delta chunk, if any. -/
def frameContent : Frame → Option String
  | .delta c => some c
  | _ => none

/-- Literal terminal marker frame. -/
def sse_done_frame : String := "data: [DONE]\n\n"

/-- Embedding of `OpenAIChatHandler._create_error_sse_chunk`: a
chunk-shaped JSON object carrying an `error` field, rendered as by
`json.dumps` (value escaping is not exercised here). -/
def create_error_sse_chunk (code message requestId : String) : String :=
  "data: \x7b\"id\": \"" ++ requestId ++
  "\", \"object\": \"chat.completion.chunk\", \"error\": \x7b\"message\": \"" ++
  message ++ "\", \"type\": \"internal_error\", \"code\": \"" ++ code ++
  "\"\x7d\x7d\n\n"

/-- Wire bytes of a frame.  Delta and finish chunks follow the chunk JSON
shape of the specification (the response-converter source is not in this
tree); the error chunk and the terminal marker follow the handler source. -/
def Frame.render (cs : ConverterState) : Frame → String
  | .delta c =>
      "data: \x7b\"id\": \"" ++ cs.requestId ++
      "\", \"object\": \"chat.completion.chunk\", \"created\": " ++
      toString cs.created ++ ", \"model\": \"" ++ cs.model ++
      "\", \"choices\": [\x7b\"index\": 0, \"delta\": \x7b\"content\": \"" ++
      c ++ "\"\x7d\x7d]\x7d\n\n"
  | .finish r =>
      "data: \x7b\"id\": \"" ++ cs.requestId ++
      "\", \"object\": \"chat.completion.chunk\", \"created\": " ++
      toString cs.created ++ ", \"model\": \"" ++ cs.model ++
      "\", \"choices\": [\x7b\"index\": 0, \"delta\": \x7b\x7d, \"finish_reason\": \"" ++
      r ++ "\"\x7d]\x7d\n\n"
  | .error code msg => create_error_sse_chunk code msg cs.requestId
  | .done => sse_done_frame

/-- Delta chunks for the events consumed so far: one chunk per event that
carries a text delta, in arrival order. -/
def delta_frames (consumed : List (Option String)) : List Frame :=
  consumed.filterMap (fun c => c.map Frame.delta)

/-- Modelled from the spec: `iter_stream` emits one delta chunk per event
with a text delta, preserving arrival order; on the terminal event it
emits a final chunk with `finish_reason` set, then the terminal marker. -/
def iter_stream (ev : RunEvents) : List Frame :=
  delta_frames ev.deltas ++ [Frame.finish ev.finishReason, Frame.done]

/-- OpenAI non-streaming response (the parts the claims observe). -/
structure ChatResponse where
  id : String
  model : String
  role : String
  content : String
  finishReason : String
deriving DecidableEq

/-- Modelled from the spec: `collect` concatenates every text delta across
the full event sequence into one assistant message and sets
`finish_reason` from the terminal event. -/
def collect (ev : RunEvents) (cs : ConverterState) : ChatResponse :=
  { id := cs.requestId
    model := cs.model
    role := "assistant"
    content := String.join (ev.deltas.filterMap id)
    finishReason := ev.finishReason }

/-! ## The streaming generator (`OpenAIChatHandler._handle_stream`)

A run of the generator either drains the runtime stream to its terminal
event, or the stream raises after some consumed prefix (`except Exception`:
one error chunk built from the classified code, then the terminal marker),
or the surrounding task is cancelled after some consumed prefix
(`asyncio.CancelledError` is not an `Exception` in Python, so it skips the
error arm and is re-raised: no further frames are written). -/

/-- Outcome of one run of the runtime event stream. -/
inductive RunOutcome where
  | ok (ev : RunEvents)
  | raises (consumed : List (Option String)) (ex : Exc)
  | cancelled (consumed : List (Option String))

/-- What one execution of the streaming generator produces: the frames
written, and whether a cancellation was re-raised to the caller (and so
propagated to the underlying event source). -/
structure GenResult where
  frames : List Frame
  cancelPropagated : Bool
deriving DecidableEq

/-- Embedding of `stream_generator` inside `_handle_stream`. -/
def stream_generator (run : RunOutcome) : GenResult :=
  match run with
  | .ok ev => ⟨iter_stream ev, false⟩
  | .raises consumed ex =>
      let err := classify_error ex
      ⟨delta_frames consumed ++
        [Frame.error err.code ex.message, Frame.done], false⟩
  | .cancelled consumed => ⟨delta_frames consumed, true⟩

/-! ## Run configuration (`src/backend/src/utils/log/loop_trace.py`)

`init_run_config` and `init_agent_config` build a `RunnableConfig` holding
only callbacks (a node logger and, when the tracer client is available, a
loop tracer handler); the handler then sets the recursion limit and thread
id on the returned configuration before calling `graph.astream`. -/

/-- The runnable configuration handed to `graph.astream`. -/
structure RunConfig where
  callbacks : List String
  recursionLimit : Option Nat
  threadId : Option String
deriving DecidableEq

/-- Embedding of `init_run_config`: a node logger callback plus the
optional loop tracer handler; neither a recursion limit nor a thread id is
set here. -/
def init_run_config (loopTracerAvailable : Bool) : RunConfig :=
  { callbacks :=
      if loopTracerAvailable then ["node_logger", "loop_tracer_handler"]
      else ["node_logger"]
    recursionLimit := none
    threadId := none }

/-- Embedding of `init_agent_config`: only the optional loop tracer
handler; neither a recursion limit nor a thread id is set here. -/
def init_agent_config (loopTracerAvailable : Bool) : RunConfig :=
  { callbacks := if loopTracerAvailable then ["loop_tracer_handler"] else []
    recursionLimit := none
    threadId := none }

/-- Embedding of the handler assignments
`run_config["recursion_limit"] = 100` and
`run_config["configurable"] = {"thread_id": session_id}` applied on both
dispatch paths. -/
def buildRunConfig (base : RunConfig) (session_id : String) : RunConfig :=
  { base with recursionLimit := some 100, threadId := some session_id }

/-! ## Request conversion

The request-converter module is a collaborator of the handler whose source
is not in this tree; its three operations are modelled from the
specification. -/

/-- One wire chat message. -/
structure WireMessage where
  role : String
  content : String
deriving DecidableEq

/-- The inbound JSON payload (fields optional as on the wire). -/
structure Payload where
  model : Option String
  messages : Option (List WireMessage)
  stream : Option Bool
  sessionId : Option String

/-- The parsed chat request. -/
structure ChatRequest where
  model : String
  messages : List WireMessage
  stream : Bool
  sessionId : Option String

/-- Modelled from the spec: `RequestConverter.parse` fails with an
invalid-request error when the required `messages` list is absent (never
silently defaulting it); the remaining fields take their wire defaults. -/
def RequestConverter.parse (p : Payload) : Except Exc ChatRequest :=
  match p.messages with
  | none => Except.error (Exc.invalidRequest "messages is required")
  | some msgs =>
      Except.ok ⟨p.model.getD "", msgs, p.stream.getD false, p.sessionId⟩

/-- Modelled from the spec: `get_session_id` derives the session
identifier from the request; when the request carries none and no ambient
identifier exists, the result is empty and the handler rejects the
request. -/
def get_session_id (req : ChatRequest) : String := req.sessionId.getD ""

/-- The normalized input handed to the runtime. -/
structure StreamInput where
  messages : List WireMessage
deriving DecidableEq

/-- The wire message roles. -/
def wire_roles : List String := ["system", "user", "assistant", "tool"]

/-- Modelled from the spec: `to_stream_input` maps wire messages to the
runtime's message shape, dropping messages whose role is not a recognized
wire role; the handler then rejects an effectively empty turn. -/
def to_stream_input (req : ChatRequest) : StreamInput :=
  ⟨req.messages.filter (fun m => wire_roles.contains m.role)⟩

/-! ## The chat handler (`OpenAIChatHandler.handle`)

The handler parses the payload, rejects a missing session identifier and
an empty converted input before any dispatch, then dispatches on the
`stream` flag.  `HandlerBehavior` records whether `graph.astream` was
reached, the configuration passed to it (when reached), and the HTTP-level
outcome. -/

/-- Body of a buffered JSON response. -/
inductive Body where
  | chat (resp : ChatResponse)
  | failure (err : OpenAIError)
deriving DecidableEq

/-- HTTP-level outcome of one handled request. -/
inductive HandleOutcome where
  | streaming (statusCode : Nat) (gen : GenResult)
  | json (statusCode : Nat) (body : Body)
  | cancelledEscape
deriving DecidableEq

/-- Observable behaviour of one call to `handle`. -/
structure HandlerBehavior where
  astreamInvoked : Bool
  configUsed : Option RunConfig
  response : HandleOutcome

/-- Status code of an outcome (none when a cancellation escaped). -/
def responseStatus : HandleOutcome → Option Nat
  | HandleOutcome.streaming s _ => some s
  | HandleOutcome.json s _ => some s
  | HandleOutcome.cancelledEscape => none

/-- Error type of a JSON error outcome, if any. -/
def responseErrorType : HandleOutcome → Option String
  | HandleOutcome.json _ (Body.failure e) => some e.type
  | _ => none

/-- Embedding of `_handle_stream`: a streaming response is committed with
status 200 before the generator runs; the frames are those of
`stream_generator`. -/
def handle_stream (run : RunOutcome) : HandleOutcome :=
  HandleOutcome.streaming 200 (stream_generator run)

/-- Embedding of `_handle_non_stream`: drain the stream, fold it with
`collect` into one buffered 200 response; a failure while draining routes
through `_handle_error`; a cancellation is not an `Exception` and
escapes. -/
def handle_non_stream (cs : ConverterState) (run : RunOutcome) :
    HandleOutcome :=
  match run with
  | RunOutcome.ok ev => HandleOutcome.json 200 (Body.chat (collect ev cs))
  | RunOutcome.raises _ ex =>
      let r := handle_error ex
      HandleOutcome.json r.1 (Body.failure r.2)
  | RunOutcome.cancelled _ => HandleOutcome.cancelledEscape

/-- Embedding of `OpenAIChatHandler.handle`.  Parameters beyond the
payload: whether the execution context is an agent project (selects the
config initializer), whether the loop tracer is available, the ambient run
id, and the behaviour of the runtime stream once dispatched. -/
def handle (p : Payload) (agentProj loopTracerAvailable : Bool)
    (ctxRunId : String) (run : RunOutcome) : HandlerBehavior :=
  match RequestConverter.parse p with
  | Except.error e =>
      let r := handle_error e
      ⟨false, none, HandleOutcome.json r.1 (Body.failure r.2)⟩
  | Except.ok req =>
      let session_id := get_session_id req
      if session_id = "" then
        ⟨false, none, HandleOutcome.json 400 (Body.failure
          ⟨"session_id is required", "invalid_request_error", "400001"⟩)⟩
      else
        let cs : ConverterState := ⟨"chatcmpl-" ++ ctxRunId, req.model, 0⟩
        let stream_input := to_stream_input req
        if stream_input.messages.isEmpty then
          ⟨false, none, HandleOutcome.json 400 (Body.failure
            ⟨"No user message found", "invalid_request_error", "400002"⟩)⟩
        else
          let base :=
            if agentProj then init_agent_config loopTracerAvailable
            else init_run_config loopTracerAvailable
          let cfg := buildRunConfig base session_id
          if req.stream then
            ⟨true, some cfg, handle_stream run⟩
          else
            ⟨true, some cfg, handle_non_stream cs run⟩

/-! ## Helper lemmas -/

/-- Counting with a predicate that rejects delta chunks gives zero on a
list of delta chunks. -/
theorem countP_delta_frames (p : Frame → Bool)
    (hp : ∀ c, p (Frame.delta c) = false) :
    ∀ l, List.countP p (delta_frames l) = 0 := by
  intro l
  induction l with
  | nil => rfl
  | cons c t ih =>
    cases c with
    | none => simpa [delta_frames, List.filterMap_cons] using ih
    | some a =>
      simp only [delta_frames, List.filterMap_cons, Option.map_some'] at ih ⊢
      simp [List.countP_cons, hp, ih]

/-- The contents carried by a list of delta chunks are exactly the present
deltas, in order. -/
theorem filterMap_content_delta_frames :
    ∀ l, (delta_frames l).filterMap frameContent = l.filterMap id := by
  intro l
  induction l with
  | nil => rfl
  | cons c t ih =>
    cases c with
    | none => simpa [delta_frames, List.filterMap_cons] using ih
    | some a =>
      simp only [delta_frames, List.filterMap_cons, Option.map_some'] at ih ⊢
      simp [frameContent, List.filterMap_cons, ih]

/-- Last element of a list extended by two elements. -/
theorem getLast?_append_pair (l : List Frame) (a b : Frame) :
    (l ++ [a, b]).getLast? = some b := by
  rw [show l ++ [a, b] = (l ++ [a]) ++ [b] by simp]
  exact List.getLast?_concat _

/-- Evaluation of `handle_error` on an invalid-request failure. -/
theorem handle_error_invalid (m : String) :
    handle_error (Exc.invalidRequest m)
      = (400, ⟨m, "invalid_request_error", "InvalidParameter"⟩) := rfl

/-! ## Theorems for the tool and the reducer -/

/-- C9: the messages reducer keeps at most `MAX_MESSAGES = 40` messages,
and what it keeps is a suffix (the most recent entries, in order) of the
merged sequence produced by `add_messages`. -/
theorem windowed_messages_bounded_suffix :
    MAX_MESSAGES = 40 ∧
    ∀ (old new : List Msg),
      (windowed_messages old new).length ≤ MAX_MESSAGES ∧
      List.IsSuffix (windowed_messages old new) (add_messages old new) := by
  refine ⟨rfl, fun old new => ?_⟩
  constructor
  · simp only [windowed_messages, List.length_drop]
    omega
  · exact List.drop_suffix _ _

/-- C10: a query that (after stripping and uppercasing) does not start with
SELECT yields the literal guard message with no database session opened; and
when the database raises, the exception is rendered into the returned
message rather than propagating. -/
theorem execute_sql_query_guard :
    (∀ (sql : List Char) (db : DbOutcome),
      py_startswith (py_upper (py_strip sql)) "SELECT".toList = false →
      execute_sql_query sql db = (only_select_error, false)) ∧
    (∀ (sql : List Char) (msg : List Char),
      py_startswith (py_upper (py_strip sql)) "SELECT".toList = true →
      execute_sql_query sql (DbOutcome.raises msg) =
        (("Error executing SQL query: ".toList ++ msg ++
          "\n\nPlease check your SQL syntax and try again.".toList), true)) := by
  constructor
  · intro sql db h
    simp at h
    simp [execute_sql_query, h]
  · intro sql msg h
    simp at h
    simp [execute_sql_query, h]

/-- Witness for C10: a concrete DROP statement is rejected without a
database session, and a concrete SELECT with a raising database returns the
rendered error message. -/
theorem execute_sql_query_guard_witness :
    execute_sql_query "DROP TABLE sales_data".toList
        (DbOutcome.rows [] []) = (only_select_error, false) ∧
    execute_sql_query "  select 1".toList (DbOutcome.raises "boom".toList) =
      (("Error executing SQL query: ".toList ++ "boom".toList ++
        "\n\nPlease check your SQL syntax and try again.".toList), true) := by
  constructor
  · exact execute_sql_query_guard.1 "DROP TABLE sales_data".toList
      (DbOutcome.rows [] []) (by decide)
  · exact execute_sql_query_guard.2 "  select 1".toList "boom".toList
      (by decide)

/-! ## Claim theorems for the protocol layer -/

/-- C1: join-equivalence — the assistant content of the aggregated response
produced by the non-streaming collect path equals the concatenation, in
arrival order, of every delta content carried by the chunks emitted by the
streaming path on the same event sequence; the non-streaming path returns
exactly the collected aggregate with status 200. -/
theorem collect_iter_stream_join_equivalence :
    ∀ (ev : RunEvents) (cs : ConverterState),
      String.join
          ((stream_generator (RunOutcome.ok ev)).frames.filterMap frameContent)
        = (collect ev cs).content ∧
      handle_non_stream cs (RunOutcome.ok ev)
        = HandleOutcome.json 200 (Body.chat (collect ev cs)) := by
  intro ev cs
  refine ⟨?_, rfl⟩
  simp [stream_generator, iter_stream, List.filterMap_append,
    filterMap_content_delta_frames, frameContent, collect]

/-- C2: on every run of the streaming generator that completes or raises
mid-iteration, the terminal marker frame is emitted exactly once and is the
last frame; the marker renders to the literal terminal frame bytes. -/
theorem stream_done_marker_once_and_last :
    ∀ (ev : RunEvents) (consumed : List (Option String)) (ex : Exc)
      (cs : ConverterState),
      ((stream_generator (RunOutcome.ok ev)).frames.countP Frame.isDone = 1 ∧
        (stream_generator (RunOutcome.ok ev)).frames.getLast?
          = some Frame.done) ∧
      ((stream_generator (RunOutcome.raises consumed ex)).frames.countP
          Frame.isDone = 1 ∧
        (stream_generator (RunOutcome.raises consumed ex)).frames.getLast?
          = some Frame.done) ∧
      Frame.render cs Frame.done = "data: [DONE]\n\n" := by
  intro ev consumed ex cs
  refine ⟨⟨?_, ?_⟩, ⟨?_, ?_⟩, rfl⟩
  · simp [stream_generator, iter_stream, List.countP_append, List.countP_cons,
      Frame.isDone, countP_delta_frames Frame.isDone (fun _ => rfl)]
  · exact getLast?_append_pair (delta_frames ev.deltas)
      (Frame.finish ev.finishReason) Frame.done
  · simp [stream_generator, List.countP_append, List.countP_cons,
      Frame.isDone, countP_delta_frames Frame.isDone (fun _ => rfl)]
  · exact getLast?_append_pair (delta_frames consumed)
      (Frame.error (classify_error ex).code ex.message) Frame.done

/-- C3: when the runtime stream raises mid-iteration, the generator emits
exactly one error chunk — carrying the classifier-derived code and the
exception message — followed by the terminal marker, and then stops; the
streaming response itself carries status 200 for every run outcome, so a
mid-stream failure never changes the already-sent status. -/
theorem stream_error_frame_then_done :
    ∀ (consumed : List (Option String)) (ex : Exc),
      (stream_generator (RunOutcome.raises consumed ex)).frames
        = delta_frames consumed ++
            [Frame.error (classify_error ex).code ex.message, Frame.done] ∧
      (stream_generator (RunOutcome.raises consumed ex)).frames.countP
          Frame.isError = 1 ∧
      (∀ run : RunOutcome, responseStatus (handle_stream run) = some 200) := by
  intro consumed ex
  refine ⟨rfl, ?_, fun _ => rfl⟩
  simp [stream_generator, List.countP_append, List.countP_cons, Frame.isError,
    countP_delta_frames Frame.isError (fun _ => rfl)]

/-- C4: on cancellation the generator writes no frame beyond the deltas
already emitted — in particular no error chunk and no terminal marker — and
re-raises so the cancellation propagates to the underlying event source. -/
theorem stream_cancellation_no_further_frames :
    ∀ (consumed : List (Option String)),
      (stream_generator (RunOutcome.cancelled consumed)).frames
        = delta_frames consumed ∧
      (stream_generator (RunOutcome.cancelled consumed)).cancelPropagated
        = true ∧
      (stream_generator (RunOutcome.cancelled consumed)).frames.countP
          Frame.isError = 0 ∧
      (stream_generator (RunOutcome.cancelled consumed)).frames.countP
          Frame.isDone = 0 := by
  intro consumed
  exact ⟨rfl, rfl, countP_delta_frames Frame.isError (fun _ => rfl) consumed,
    countP_delta_frames Frame.isDone (fun _ => rfl) consumed⟩

/-- C5: when the payload has no messages list, or the converted runtime
input contains zero messages, the handler returns 400 with error type
invalid_request_error and the runtime collaborator is never invoked. -/
theorem handle_missing_messages_rejected_400 :
    ∀ (p : Payload) (agentProj loopTracerAvailable : Bool) (rid : String)
      (run : RunOutcome),
      (p.messages = none ∨
        ∃ req, RequestConverter.parse p = Except.ok req ∧
          (to_stream_input req).messages = []) →
      responseStatus (handle p agentProj loopTracerAvailable rid run).response
          = some 400 ∧
      responseErrorType
          (handle p agentProj loopTracerAvailable rid run).response
          = some "invalid_request_error" ∧
      (handle p agentProj loopTracerAvailable rid run).astreamInvoked
          = false := by
  intro p a t rid run h
  rcases h with hnone | ⟨req, hparse, hempty⟩
  · simp [handle, RequestConverter.parse, hnone, handle_error_invalid,
      responseStatus, responseErrorType]
  · by_cases hsid : get_session_id req = ""
    · simp [handle, hparse, hsid, responseStatus, responseErrorType]
    · simp [handle, hparse, hsid, hempty, responseStatus, responseErrorType]

/-- Witness for C5: a concrete payload without a messages list is rejected
with 400, invalid_request_error, and no runtime dispatch. -/
theorem handle_missing_messages_rejected_400_witness :
    responseStatus (handle ⟨some "m", none, some false, some "s"⟩ false false
        "r" (RunOutcome.ok ⟨[], "stop"⟩)).response = some 400 ∧
    responseErrorType (handle ⟨some "m", none, some false, some "s"⟩ false
        false "r" (RunOutcome.ok ⟨[], "stop"⟩)).response
        = some "invalid_request_error" ∧
    (handle ⟨some "m", none, some false, some "s"⟩ false false "r"
        (RunOutcome.ok ⟨[], "stop"⟩)).astreamInvoked = false :=
  handle_missing_messages_rejected_400 _ _ _ _ _ (Or.inl rfl)

/-- C6: when no session identifier can be derived from the parsed request,
the handler returns the 400 invalid-request error before any runtime
dispatch: no configuration is built and the runtime is not invoked. -/
theorem handle_missing_session_rejected_400 :
    ∀ (p : Payload) (agentProj loopTracerAvailable : Bool) (rid : String)
      (run : RunOutcome) (req : ChatRequest),
      RequestConverter.parse p = Except.ok req →
      get_session_id req = "" →
      (handle p agentProj loopTracerAvailable rid run).response
          = HandleOutcome.json 400 (Body.failure
              ⟨"session_id is required", "invalid_request_error", "400001"⟩) ∧
      (handle p agentProj loopTracerAvailable rid run).astreamInvoked
          = false ∧
      (handle p agentProj loopTracerAvailable rid run).configUsed = none := by
  intro p a t rid run req hparse hsid
  simp [handle, hparse, hsid]

/-- Witness for C6: a concrete payload carrying messages but no session
identifier is rejected with the 400001 invalid-request error before
dispatch. -/
theorem handle_missing_session_rejected_400_witness :
    (handle ⟨some "m", some [⟨"user", "hi"⟩], some false, none⟩ false false
        "r" (RunOutcome.ok ⟨[], "stop"⟩)).response
      = HandleOutcome.json 400 (Body.failure
          ⟨"session_id is required", "invalid_request_error", "400001"⟩) ∧
    (handle ⟨some "m", some [⟨"user", "hi"⟩], some false, none⟩ false false
        "r" (RunOutcome.ok ⟨[], "stop"⟩)).astreamInvoked = false ∧
    (handle ⟨some "m", some [⟨"user", "hi"⟩], some false, none⟩ false false
        "r" (RunOutcome.ok ⟨[], "stop"⟩)).configUsed = none :=
  handle_missing_session_rejected_400 _ _ _ _ _
    ⟨"m", [⟨"user", "hi"⟩], false, none⟩ rfl rfl

/-- C7: the handler's error path maps the classified category to the HTTP
status and error type: Invalid and BadRequest give 400 with
invalid_request_error, NotFound gives 404, TimeOut gives 408, and the
System category — as well as an absent category — gives 500 with
internal_error. -/
theorem handle_error_status_mapping :
    ∀ (code m orig : String),
      handle_error_from ⟨some ErrorCategory.Invalid, code, m⟩ orig
        = (400, ⟨orig, "invalid_request_error", code⟩) ∧
      handle_error_from ⟨some ErrorCategory.BadRequest, code, m⟩ orig
        = (400, ⟨orig, "invalid_request_error", code⟩) ∧
      handle_error_from ⟨some ErrorCategory.NotFound, code, m⟩ orig
        = (404, ⟨orig, "not_found_error", code⟩) ∧
      handle_error_from ⟨some ErrorCategory.TimeOut, code, m⟩ orig
        = (408, ⟨orig, "timeout_error", code⟩) ∧
      handle_error_from ⟨some ErrorCategory.System, code, m⟩ orig
        = (500, ⟨orig, "internal_error", code⟩) ∧
      handle_error_from ⟨none, code, m⟩ orig
        = (500, ⟨orig, "internal_error", code⟩) := by
  intro code m orig
  exact ⟨rfl, rfl, rfl, rfl, rfl, rfl⟩

/-- C8: whenever the handler reaches a runtime dispatch, the configuration
passed to `graph.astream` has the fixed recursion limit 100 and the derived
session identifier as thread id, for both streaming and non-streaming
paths and independent of the payload. -/
theorem astream_config_fixed_limit_and_thread :
    ∀ (p : Payload) (agentProj loopTracerAvailable : Bool) (rid : String)
      (run : RunOutcome) (req : ChatRequest) (cfg : RunConfig),
      RequestConverter.parse p = Except.ok req →
      (handle p agentProj loopTracerAvailable rid run).configUsed = some cfg →
      cfg.recursionLimit = some 100 ∧
      cfg.threadId = some (get_session_id req) := by
  intro p a t rid run req cfg hparse hcfg
  by_cases hsid : get_session_id req = ""
  · simp [handle, hparse, hsid] at hcfg
  · by_cases hempty : (to_stream_input req).messages.isEmpty
    · simp [handle, hparse, hsid, hempty] at hcfg
    · cases hstream : req.stream with
      | false =>
        simp [handle, hparse, hsid, hempty, hstream] at hcfg
        subst hcfg
        simp [buildRunConfig]
      | true =>
        simp [handle, hparse, hsid, hempty, hstream] at hcfg
        subst hcfg
        simp [buildRunConfig]

/-- Witness for C8: a concrete valid streaming payload dispatches with
recursion limit 100 and its session identifier as thread id. -/
theorem astream_config_fixed_limit_and_thread_witness :
    (buildRunConfig (init_run_config false) "sess").recursionLimit
        = some 100 ∧
    (buildRunConfig (init_run_config false) "sess").threadId
        = some (get_session_id ⟨"m", [⟨"user", "hi"⟩], true, some "sess"⟩) :=
  astream_config_fixed_limit_and_thread
    ⟨some "m", some [⟨"user", "hi"⟩], some true, some "sess"⟩ false false "r"
    (RunOutcome.ok ⟨[], "stop"⟩) ⟨"m", [⟨"user", "hi"⟩], true, some "sess"⟩
    (buildRunConfig (init_run_config false) "sess") rfl rfl
